import Mathlib

/-!
# Verification of the auth-service token lifecycle and RBAC engine

A shallow embedding of the authentication service of the emr-dashboard
repository (`backend/auth-service/src`): the JWT codec and passlib hasher
are modelled symbolically, the SQLAlchemy-backed tables (`users`, `roles`,
`refresh_tokens`) become lists of records, and each route/service function
becomes a pure Lean function from the request data and database state to a
response and the updated state.  Time is a `Nat` of seconds, matching the
second-granularity `utcnow()` comparisons of PyJWT.
-/

set_option autoImplicit false

namespace EmrAuth

/-! ## Symbolic model of PyJWT (`jwt.encode` / `jwt.decode`, HS256)

A signed token is its payload together with the key it was signed with;
`jwtDecode` succeeds exactly when the presented verification key equals the
signing key, modelling an unforgeable MAC.  PyJWT verifies `exp` by default
(`ExpiredSignatureError`, a subclass of `InvalidTokenError`, when
`exp <= now`); callers can disable this with `verify_exp: False`, which the
logout and revoke-all-sessions routes do. -/

inductive TokenError where
  | invalid
  | expired
deriving DecidableEq, Repr

/-- A JWT claims set.  Access tokens fill every field; refresh tokens carry
only `sub`, `exp`, `iat`, `jti` (the optional fields are `none`). -/
structure JwtPayload where
  sub : String
  username : Option String
  roles : Option (List String)
  permissions : Option (List String)
  exp : Nat
  iat : Nat
  jti : String
deriving DecidableEq, Repr

structure Jwt where
  payload : JwtPayload
  key : String
deriving DecidableEq, Repr

/-- `jwt.decode(token, secret, algorithms=[HS256], options={verify_exp})`. -/
def jwtDecode (tok : Jwt) (secret : String) (now : Nat) (verifyExp : Bool) :
    Except TokenError JwtPayload :=
  bif tok.key != secret then .error .invalid
  else bif verifyExp && decide (tok.payload.exp ≤ now) then .error .expired
  else .ok tok.payload

/-! ## Symbolic model of passlib's `pbkdf2_sha256`

A stored hash string is either a well-formed `$pbkdf2-sha256$rounds$salt$checksum`
string (carried in parsed form) or malformed.  The digest is modelled by an
injective encoding of `(rounds, salt, password)`.  Per passlib's documented
behaviour, `verify(secret, hash)` returns a boolean for a recognised hash and
raises `ValueError` when the hash string is not a valid hash of the scheme. -/

inductive PasslibError where
  | valueError
deriving DecidableEq, Repr

inductive HashStr where
  | wellFormed (rounds : Nat) (salt : String) (checksum : String)
  | malformed (raw : String)
deriving DecidableEq, Repr

/-- Symbolic PBKDF2-HMAC-SHA256 digest: an injective pairing standing in for
the real one-way function. -/
def pbkdf2Digest (rounds : Nat) (salt password : String) : String :=
  "pbkdf2(" ++ toString rounds ++ "," ++ salt ++ "," ++ password ++ ")"

/-- `pbkdf2_sha256.using(salt=...).hash(password)`. -/
def passlibHash (rounds : Nat) (salt password : String) : HashStr :=
  .wellFormed rounds salt (pbkdf2Digest rounds salt password)

/-- `pbkdf2_sha256.verify(password, hash)`: recomputes the digest with the
stored salt/rounds for a recognised hash; raises `ValueError` otherwise. -/
def passlibVerify (password : String) (h : HashStr) : Except PasslibError Bool :=
  match h with
  | .wellFormed rounds salt checksum =>
      .ok (checksum == pbkdf2Digest rounds salt password)
  | .malformed _ => .error .valueError

/-! ## Configuration (`config.py`)

`JWT_ACCESS_TOKEN_EXPIRES` / `JWT_REFRESH_TOKEN_EXPIRES` are environment
driven (defaults 3600 s and 604800 s); they are carried here as fields. -/

structure AuthConfig where
  jwtSecretKey : String
  passwordSalt : String
  passlibRounds : Nat
  accessTTL : Nat
  refreshTTL : Nat
deriving Repr

/-! ## Data model (`models/user.py`) -/

/-- `Role`: permissions are stored as one comma-separated string. -/
structure Role where
  name : String
  description : Option String
  permissions : String
deriving DecidableEq, Repr

/-- `Role.get_permissions`: `self.permissions.split(',') if self.permissions else []`. -/
def Role.get_permissions (r : Role) : List String :=
  if r.permissions = "" then [] else r.permissions.splitOn ","

structure UserRec where
  id : String
  email : String
  username : String
  password_hash : HashStr
  is_active : Bool
  roles : List Role
  last_login_at : Option Nat
deriving DecidableEq, Repr

structure RefreshTokenRec where
  token : String
  user_id : String
  expires_at : Nat
  is_revoked : Bool
  user_agent : Option String
  ip_address : Option String
deriving DecidableEq, Repr

/-- The relational state the service mutates. -/
structure DB where
  users : List UserRec
  roles : List Role
  refreshTokens : List RefreshTokenRec
deriving DecidableEq, Repr

/-- `query(...).filter_by(...).first()` followed by a field assignment and
`commit()`: update the first matching row. -/
def updateFirst {α : Type} (p : α → Bool) (f : α → α) : List α → List α
  | [] => []
  | x :: xs => bif p x then f x :: xs else x :: updateFirst p f xs

/-- `db_session.delete(obj)` on the first row matching a filter. -/
def removeFirst {α : Type} (p : α → Bool) : List α → List α
  | [] => []
  | x :: xs => bif p x then xs else x :: removeFirst p xs

/-! ## `services/auth_service.py` -/

/-- `AuthService.hash_password`. -/
def hash_password (cfg : AuthConfig) (password : String) : HashStr :=
  passlibHash cfg.passlibRounds cfg.passwordSalt password

/-- `AuthService.verify_password`: a bare `pbkdf2_sha256.verify(password, hash)`
with no exception handling, so passlib's `ValueError` propagates. -/
def verify_password (password : String) (password_hash : HashStr) :
    Except PasslibError Bool :=
  passlibVerify password password_hash

/-- The access-token claims built by `AuthService.generate_tokens`. -/
def accessPayload (cfg : AuthConfig) (u : UserRec) (now : Nat) (jti : String) :
    JwtPayload :=
  { sub := u.id
    username := some u.username
    roles := some (u.roles.map Role.name)
    permissions := some (u.roles.flatMap Role.get_permissions)
    exp := now + cfg.accessTTL
    iat := now
    jti := jti }

/-- The refresh-token claims built by `AuthService.generate_tokens`. -/
def refreshPayload (cfg : AuthConfig) (userId : String) (now : Nat) (jti : String) :
    JwtPayload :=
  { sub := userId
    username := none
    roles := none
    permissions := none
    exp := now + cfg.refreshTTL
    iat := now
    jti := jti }

/-- `AuthService.generate_tokens`: returns
`(access_token, refresh_token, refresh_token_jti)`; the fresh `uuid4` jtis are
inputs from the environment. -/
def generate_tokens (cfg : AuthConfig) (u : UserRec) (now : Nat)
    (jtiA jtiR : String) : Jwt × Jwt × String :=
  (⟨accessPayload cfg u now jtiA, cfg.jwtSecretKey⟩,
   ⟨refreshPayload cfg u.id now jtiR, cfg.jwtSecretKey⟩,
   jtiR)

/-- `AuthService.store_refresh_token`: inserts a non-revoked ledger row with
`expires_at = utcnow() + JWT_REFRESH_TOKEN_EXPIRES`. -/
def store_refresh_token (cfg : AuthConfig) (db : DB) (u : UserRec)
    (tokenJti : String) (ua ip : Option String) (now : Nat) :
    RefreshTokenRec × DB :=
  let row : RefreshTokenRec :=
    { token := tokenJti
      user_id := u.id
      expires_at := now + cfg.refreshTTL
      is_revoked := false
      user_agent := ua
      ip_address := ip }
  (row, { db with refreshTokens := db.refreshTokens ++ [row] })

/-- `AuthService.revoke_refresh_token`: looks the row up by jti alone and sets
`is_revoked`; returns whether a row was found. -/
def revoke_refresh_token (db : DB) (tokenJti : String) : Bool × DB :=
  match db.refreshTokens.find? (fun t => t.token == tokenJti) with
  | some _ =>
      (true,
       { db with
           refreshTokens :=
             updateFirst (fun t => t.token == tokenJti)
               (fun t => { t with is_revoked := true }) db.refreshTokens })
  | none => (false, db)

/-- `AuthService.validate_access_token`: `jwt.decode` under the service key;
`InvalidTokenError` (including expiry) is caught and reported as
`(False, empty)`. -/
def validate_access_token (cfg : AuthConfig) (token : Jwt) (now : Nat) :
    Bool × Option JwtPayload :=
  match jwtDecode token cfg.jwtSecretKey now true with
  | .ok payload => (true, some payload)
  | .error _ => (false, none)

/-- `AuthService.validate_refresh_token`: decode (with expiry verification),
look up an unrevoked ledger row by jti, revoke it if its `expires_at` has
passed, then require an active owning user.  Returns the route's
`(valid, user, token_jti)` triple as an `Option`, with the possibly updated
database. -/
def validate_refresh_token (cfg : AuthConfig) (db : DB) (token : Jwt)
    (now : Nat) : Option (UserRec × String) × DB :=
  match jwtDecode token cfg.jwtSecretKey now true with
  | .error _ => (none, db)
  | .ok payload =>
      match db.refreshTokens.find?
          (fun t => t.token == payload.jti && !t.is_revoked) with
      | none => (none, db)
      | some dbToken =>
          if dbToken.expires_at < now then
            (none,
             { db with
                 refreshTokens :=
                   updateFirst (fun t => t.token == payload.jti && !t.is_revoked)
                     (fun t => { t with is_revoked := true }) db.refreshTokens })
          else
            match db.users.find? (fun u => u.id == payload.sub) with
            | none => (none, db)
            | some user =>
                if !user.is_active then (none, db)
                else (some (user, payload.jti), db)

/-- `AuthService.update_last_login`. -/
def update_last_login (db : DB) (u : UserRec) (now : Nat) : DB :=
  { db with
      users :=
        updateFirst (fun x => x.id == u.id)
          (fun x => { x with last_login_at := some now }) db.users }

/-! ## `services/rbac_service.py` -/

/-- `RBACService.delete_role`: returns `False` when no role matches, otherwise
deletes the row and returns `True`. -/
def RBACService.delete_role (db : DB) (roleName : String) : Bool × DB :=
  match db.roles.find? (fun r => r.name == roleName) with
  | none => (false, db)
  | some _ =>
      (true, { db with roles := removeFirst (fun r => r.name == roleName) db.roles })

/-! ## `routes/auth_routes.py` -/

inductive LoginResult where
  /-- `jsonify(error), status` -/
  | err (status : Nat) (msg : String)
  /-- 200 with the token pair and user summary. -/
  | ok (access refresh : Jwt) (userId : String)
  /-- An uncaught exception escaping the route (Flask turns it into a 500):
  reachable through `verify_password` on a malformed stored hash. -/
  | serverError
deriving DecidableEq, Repr

/-- The `POST /auth/login` route.  `email?`/`password?` are `data.get(...)`
(`none` for a missing field, and Python's `not x` is also true for `""`);
`jtiA`/`jtiR` are the fresh `uuid4` values drawn inside `generate_tokens`. -/
def login (cfg : AuthConfig) (db : DB) (email? password? : Option String)
    (ua ip : Option String) (now : Nat) (jtiA jtiR : String) :
    LoginResult × DB :=
  match email?, password? with
  | some email, some password =>
      if email = "" ∨ password = "" then
        (.err 400 "Email and password are required", db)
      else
        match db.users.find? (fun u => u.email == email) with
        | none => (.err 401 "Invalid credentials", db)
        | some user =>
            if !user.is_active then (.err 401 "Invalid credentials", db)
            else
              match verify_password password user.password_hash with
              | .error _ => (.serverError, db)
              | .ok false => (.err 401 "Invalid credentials", db)
              | .ok true =>
                  let gen := generate_tokens cfg user now jtiA jtiR
                  let st := store_refresh_token cfg db user gen.2.2 ua ip now
                  let db2 := update_last_login st.2 user now
                  (.ok gen.1 gen.2.1 user.id, db2)
  | _, _ => (.err 400 "Email and password are required", db)

inductive RefreshResult where
  | err (status : Nat) (msg : String)
  | ok (access refresh : Jwt)
deriving DecidableEq, Repr

def RefreshResult.isOk : RefreshResult → Bool
  | .ok _ _ => true
  | .err _ _ => false

/-- The tail of the `POST /auth/refresh` route after validation has returned
a user and jti: revoke the consumed jti, mint and store a new pair, update
the last-login timestamp.  Factored out so that the interleaved (concurrent)
execution below reuses the exact sequential code. -/
def refresh_commit (cfg : AuthConfig) (db : DB) (user : UserRec)
    (tokenJti : String) (ua ip : Option String) (now : Nat)
    (jtiA jtiR : String) : RefreshResult × DB :=
  let rv := revoke_refresh_token db tokenJti
  let gen := generate_tokens cfg user now jtiA jtiR
  let st := store_refresh_token cfg rv.2 user gen.2.2 ua ip now
  let db3 := update_last_login st.2 user now
  (.ok gen.1 gen.2.1, db3)

/-- The `POST /auth/refresh` route. -/
def refresh (cfg : AuthConfig) (db : DB) (refreshToken? : Option Jwt)
    (ua ip : Option String) (now : Nat) (jtiA jtiR : String) :
    RefreshResult × DB :=
  match refreshToken? with
  | none => (.err 400 "Refresh token is required", db)
  | some tok =>
      match validate_refresh_token cfg db tok now with
      | (none, db1) => (.err 401 "Invalid or expired refresh token", db1)
      | (some (user, tokenJti), db1) =>
          refresh_commit cfg db1 user tokenJti ua ip now jtiA jtiR

/-- Two concurrent workers running `POST /auth/refresh` with the same token
against the shared database.  Each SQLAlchemy round-trip (the validation
queries, then the revoke/insert commits) is atomic, but the code takes no
row-level lock and performs no compare-and-set (`with_for_update` is never
used), so under the default read-committed isolation the schedule in which
both workers run `validate_refresh_token` before either commits is legal.
This function executes exactly that schedule: validate₁, validate₂, then
worker 1's commit phase, then worker 2's. -/
def refresh_interleaved (cfg : AuthConfig) (db : DB) (tok : Jwt) (now : Nat)
    (jA1 jR1 jA2 jR2 : String) : RefreshResult × RefreshResult × DB :=
  let v1 := validate_refresh_token cfg db tok now
  let v2 := validate_refresh_token cfg v1.2 tok now
  let s1 :=
    match v1.1 with
    | none => (RefreshResult.err 401 "Invalid or expired refresh token", v2.2)
    | some (u, j) => refresh_commit cfg v2.2 u j none none now jA1 jR1
  let s2 :=
    match v2.1 with
    | none => (RefreshResult.err 401 "Invalid or expired refresh token", s1.2)
    | some (u, j) => refresh_commit cfg s1.2 u j none none now jA2 jR2
  (s1.1, s2.1, s2.2)

/-! ## `routes/user_routes.py` -/

/-- The `POST /users/me/logout` route.  Decoding is done with
`verify_exp: False`; any decode failure, a missing token, a falsy jti, or an
unknown jti all still answer 200. -/
def logout (cfg : AuthConfig) (db : DB) (refreshToken? : Option Jwt) :
    (Nat × String) × DB :=
  match refreshToken? with
  | none => ((200, "Logged out successfully"), db)
  | some tok =>
      match jwtDecode tok cfg.jwtSecretKey 0 false with
      | .error _ => ((200, "Logged out successfully"), db)
      | .ok payload =>
          if payload.jti = "" then ((200, "Logged out successfully"), db)
          else
            let rv := revoke_refresh_token db payload.jti
            ((200, "Logged out successfully"), rv.2)

inductive SessionsResult where
  /-- 404 User not found. -/
  | notFound
  /-- 200 All other sessions revoked successfully. -/
  | ok
deriving DecidableEq, Repr

/-- The `DELETE /users/me/sessions` route (`revoke_all_sessions`).  `userId`
is `g.user_id` from the authenticated access token.  The current jti is
extracted best-effort (decode with `verify_exp: False`, failures swallowed);
the loop then revokes every token row of the user whose jti differs from it,
and, when no current jti was extracted (`not current_token_jti`, i.e. `None`
or `""`), every token row of the user. -/
def revoke_all_sessions (cfg : AuthConfig) (db : DB) (userId : String)
    (current? : Option Jwt) : SessionsResult × DB :=
  match db.users.find? (fun u => u.id == userId) with
  | none => (.notFound, db)
  | some user =>
      let currentJti : Option String :=
        match current? with
        | none => none
        | some tok =>
            match jwtDecode tok cfg.jwtSecretKey 0 false with
            | .error _ => none
            | .ok p => some p.jti
      let shouldRevoke (t : RefreshTokenRec) : Bool :=
        match currentJti with
        | none => true
        | some j => j == "" || t.token != j
      (.ok,
       { db with
           refreshTokens :=
             db.refreshTokens.map (fun t =>
               if t.user_id == user.id && shouldRevoke t then
                 { t with is_revoked := true }
               else t) })

/-! ## `routes/admin_routes.py` -/

inductive AdminResult where
  | err (status : Nat) (msg : String)
  | ok (msg : String)
deriving DecidableEq, Repr

/-- The `DELETE /admin/roles/<role_name>` route.  (The surrounding quotes of
the f-string messages are dropped here.) -/
def delete_role_route (db : DB) (roleName : String) : AdminResult × DB :=
  if roleName == "admin" || roleName == "user" then
    (.err 403 ("Cannot delete the " ++ roleName ++ " role"), db)
  else
    match RBACService.delete_role db roleName with
    | (false, db1) => (.err 404 ("Role " ++ roleName ++ " not found"), db1)
    | (true, db1) => (.ok ("Role " ++ roleName ++ " deleted successfully"), db1)

/-- The `PUT /admin/roles/<role_name>` route. -/
def update_role_route (db : DB) (roleName : String)
    (description? : Option String) (permissions? : Option (List String)) :
    AdminResult × DB :=
  match db.roles.find? (fun r => r.name == roleName) with
  | none => (.err 404 ("Role " ++ roleName ++ " not found"), db)
  | some _ =>
      if roleName == "admin" ∧ permissions?.isSome then
        (.err 403 "Cannot modify permissions for the admin role", db)
      else
        let apply (r : Role) : Role :=
          let r1 :=
            match description? with
            | some d => { r with description := some d }
            | none => r
          match permissions? with
          | some ps => { r1 with permissions := String.intercalate "," ps }
          | none => r1
        (.ok "Role updated successfully",
         { db with roles := updateFirst (fun r => r.name == roleName) apply db.roles })

/-- The database state after `POST /auth/refresh` successfully rotates the
row with jti `j` into a fresh row `jR` for user `u`: the consumed row is
revoked, the new unrevoked row appended, and the user's last-login timestamp
set.  (Derived shape of the route's writes; the rotation theorem proves the
route produces exactly this state.) -/
def rotatedDB (cfg : AuthConfig) (db : DB) (u : UserRec) (j jR : String)
    (ua ip : Option String) (now : Nat) : DB :=
  { users :=
      updateFirst (fun x => x.id == u.id)
        (fun x => { x with last_login_at := some now }) db.users,
    roles := db.roles,
    refreshTokens :=
      updateFirst (fun t => t.token == j) (fun t => { t with is_revoked := true })
        db.refreshTokens ++
      [{ token := jR, user_id := u.id, expires_at := now + cfg.refreshTTL,
         is_revoked := false, user_agent := ua, ip_address := ip }] }

/-! ## List lemmas for the row-update model -/

theorem updateFirst_nil {α : Type} (p : α → Bool) (f : α → α) :
    updateFirst p f [] = [] := rfl

theorem updateFirst_cons {α : Type} (p : α → Bool) (f : α → α) (x : α)
    (xs : List α) :
    updateFirst p f (x :: xs) = bif p x then f x :: xs else x :: updateFirst p f xs :=
  rfl

/-- A list with no row satisfying `p` has no row satisfying the stronger `q`. -/
theorem find?_eq_none_of_countP_eq_zero {α : Type} (p q : α → Bool)
    (himp : ∀ a, q a = true → p a = true)
    (l : List α) (h : l.countP p = 0) : l.find? q = none :=
  List.find?_eq_none.mpr fun x hx hq =>
    absurd h (by
      have : 0 < l.countP p := List.countP_pos_iff.mpr ⟨x, hx, himp x hq⟩
      omega)

/-- Updating the first row satisfying `p` does not change how many rows satisfy
a predicate `r` that the update preserves. -/
theorem countP_updateFirst {α : Type} (p r : α → Bool) (f : α → α)
    (hf : ∀ a, r (f a) = r a) :
    ∀ l : List α, (updateFirst p f l).countP r = l.countP r := by
  intro l
  induction l with
  | nil => rfl
  | cons x xs ih =>
      rw [updateFirst_cons]
      cases hpx : p x
      · rw [cond_false, List.countP_cons, List.countP_cons, ih]
      · rw [cond_true, List.countP_cons, List.countP_cons, hf]

/-- After revoking the (unique) ledger row carrying jti `j`, no unrevoked row
with jti `j` remains. -/
theorem find?_unrevoked_after_revoke (j : String) :
    ∀ l : List RefreshTokenRec,
      l.countP (fun t => t.token == j) ≤ 1 →
      (updateFirst (fun t => t.token == j)
          (fun t => { t with is_revoked := true }) l).find?
        (fun t => t.token == j && !t.is_revoked) = none := by
  intro l
  induction l with
  | nil => intro _; rfl
  | cons x xs ih =>
      intro h
      rw [updateFirst_cons]
      cases hpx : (x.token == j)
      · rw [cond_false]
        rw [List.find?_cons_of_neg _ (by simp [hpx])]
        refine ih ?_
        rw [List.countP_cons_of_neg _ _ (by simp [hpx])] at h
        exact h
      · rw [cond_true]
        rw [List.find?_cons_of_neg _ (by simp)]
        have hxs : xs.countP (fun t => t.token == j) = 0 := by
          rw [List.countP_cons_of_pos _ _ (by simp [hpx])] at h
          omega
        exact find?_eq_none_of_countP_eq_zero _ _
          (fun a ha => by
            cases hta : (a.token == j)
            · rw [hta] at ha; exact absurd ha (by simp)
            · rfl)
          xs hxs

/-- After the expiry-discovery branch revokes the (unique) row with jti `j`
that it found unrevoked, no unrevoked row with jti `j` remains. -/
theorem find?_unrevoked_after_consume (j : String) :
    ∀ l : List RefreshTokenRec,
      l.countP (fun t => t.token == j) ≤ 1 →
      (updateFirst (fun t => t.token == j && !t.is_revoked)
          (fun t => { t with is_revoked := true }) l).find?
        (fun t => t.token == j && !t.is_revoked) = none := by
  intro l
  induction l with
  | nil => intro _; rfl
  | cons x xs ih =>
      intro h
      rw [updateFirst_cons]
      cases hqx : (x.token == j && !x.is_revoked)
      · rw [cond_false, List.find?_cons_of_neg _ (by simp [hqx])]
        refine ih ?_
        cases hpx : (x.token == j)
        · rw [List.countP_cons_of_neg _ _ (by simp [hpx])] at h
          exact h
        · rw [List.countP_cons_of_pos _ _ (by simp [hpx])] at h
          omega
      · rw [cond_true, List.find?_cons_of_neg _ (by simp)]
        have hpx : (x.token == j) = true := by
          revert hqx
          cases (x.token == j) <;> simp
        have hxs : xs.countP (fun t => t.token == j) = 0 := by
          rw [List.countP_cons_of_pos _ _ (by simp [hpx])] at h
          omega
        exact find?_eq_none_of_countP_eq_zero _ _
          (fun a ha => by
            revert ha
            cases hta : (a.token == j) <;> simp)
          xs hxs

/-- Updating the first row found by `p` moves `find? p` to the updated row,
provided the update keeps the row satisfying `p`. -/
theorem find?_updateFirst_of_found {α : Type} (p : α → Bool) (f : α → α) :
    ∀ (l : List α) (x : α), l.find? p = some x → p (f x) = true →
      (updateFirst p f l).find? p = some (f x) := by
  intro l
  induction l with
  | nil => intro x hx; exact absurd hx (by simp)
  | cons y ys ih =>
      intro x hx hfx
      rw [updateFirst_cons]
      cases hpy : p y
      · rw [List.find?_cons_of_neg _ (by simp [hpy])] at hx
        rw [cond_false, List.find?_cons_of_neg _ (by simp [hpy])]
        exact ih x hx hfx
      · rw [List.find?_cons_of_pos _ hpy] at hx
        have hyx : y = x := by injection hx
        subst hyx
        rw [cond_true, List.find?_cons_of_pos _ hfx]

/-! ## Concrete scenario used to instantiate the theorems -/

def cfg0 : AuthConfig :=
  { jwtSecretKey := "k"
    passwordSalt := "s"
    passlibRounds := 29000
    accessTTL := 3600
    refreshTTL := 604800 }

def roleUser0 : Role :=
  { name := "user", description := none, permissions := "read_self" }

def user0 : UserRec :=
  { id := "u1"
    email := "alice@example.com"
    username := "alice"
    password_hash := hash_password cfg0 "pw1"
    is_active := true
    roles := [roleUser0]
    last_login_at := none }

def rec0 : RefreshTokenRec :=
  { token := "j1"
    user_id := "u1"
    expires_at := 100 + 604800
    is_revoked := false
    user_agent := none
    ip_address := none }

def db0 : DB := { users := [user0], roles := [roleUser0], refreshTokens := [rec0] }

/-- The refresh token issued at time 100 whose ledger row is `rec0`. -/
def tok0 : Jwt := ⟨refreshPayload cfg0 "u1" 100 "j1", "k"⟩

/-- The same user, deactivated, and a database holding them. -/
def userInactive : UserRec := { user0 with is_active := false }

def dbInactive : DB :=
  { users := [userInactive], roles := [roleUser0], refreshTokens := [rec0] }

/-- A ledger row whose `expires_at` has passed while the matching token's own
`exp` claim has not (only reachable for rows not produced by the normal
issuance flow, whose ledger expiry is never earlier than the token expiry). -/
def recExpired : RefreshTokenRec :=
  { token := "j2"
    user_id := "u1"
    expires_at := 150
    is_revoked := false
    user_agent := none
    ip_address := none }

def tokLongExp : Jwt :=
  ⟨{ sub := "u1", username := none, roles := none, permissions := none,
     exp := 1000000, iat := 100, jti := "j2" }, "k"⟩

def dbExpired : DB :=
  { users := [user0], roles := [roleUser0], refreshTokens := [recExpired] }

/-! ## Claims -/

/-- C5: for every access token produced by `generate_tokens`, decoding it via
`validate_access_token` before its expiry returns exactly the claims embedded
at issuance (`sub`, `username`, `roles`, `permissions`, `iat`, `exp`, `jti`,
which are precisely the fields of `accessPayload`); once `now` is past `exp`
the decode fails instead of returning the claims. -/
theorem access_token_roundtrip (cfg : AuthConfig) (u : UserRec)
    (now now2 : Nat) (jtiA jtiR : String) :
    (now2 < now + cfg.accessTTL →
      validate_access_token cfg (generate_tokens cfg u now jtiA jtiR).1 now2 =
        (true, some (accessPayload cfg u now jtiA))) ∧
    (now + cfg.accessTTL < now2 →
      validate_access_token cfg (generate_tokens cfg u now jtiA jtiR).1 now2 =
        (false, none)) := by
  refine ⟨fun h => ?_, fun h => ?_⟩ <;>
    simp only [validate_access_token, generate_tokens, jwtDecode, accessPayload,
      bne_self_eq_false, cond_false, Bool.true_and]
  · rw [decide_eq_false (by omega : ¬ (now + cfg.accessTTL ≤ now2)), cond_false]
  · rw [decide_eq_true (by omega : now + cfg.accessTTL ≤ now2), cond_true]

/-- Instantiation of `access_token_roundtrip` on the concrete scenario. -/
theorem access_token_roundtrip_witness :
    validate_access_token cfg0 (generate_tokens cfg0 user0 100 "a1" "r1").1 200 =
        (true, some (accessPayload cfg0 user0 100 "a1")) ∧
    validate_access_token cfg0 (generate_tokens cfg0 user0 100 "a1" "r1").1 5000 =
        (false, none) :=
  ⟨(access_token_roundtrip cfg0 user0 100 200 "a1" "r1").1 (by decide),
   (access_token_roundtrip cfg0 user0 100 5000 "a1" "r1").2 (by decide)⟩

/-- C7 counterexample: on a malformed stored hash, `verify_password` does not
return `false`; it propagates passlib's `ValueError` uncaught (the claim says
it returns false and never raises). -/
theorem verify_password_malformed_raises :
    verify_password "pw" (HashStr.malformed "not-a-hash") =
      Except.error PasslibError.valueError := rfl

/-- C7 (amended): `verify_password` returns a boolean non-match/match verdict
only for a well-formed stored hash; on a malformed stored hash it raises
(propagates passlib's `ValueError`) instead of returning false. -/
theorem verify_password_total_behavior (password raw salt checksum : String)
    (rounds : Nat) :
    verify_password password (HashStr.malformed raw) =
        Except.error PasslibError.valueError ∧
    verify_password password (HashStr.wellFormed rounds salt checksum) =
        Except.ok (checksum == pbkdf2Digest rounds salt password) :=
  ⟨rfl, rfl⟩

/-- C4: on a well-formed login request (both fields present and non-empty),
the three failure cases — unregistered email, inactive account, non-matching
password — all produce the one identical response `(401, Invalid credentials)`
with the database untouched, while a registered active user with the correct
password receives the freshly minted access/refresh pair. -/
theorem login_invalid_credentials_uniform (cfg : AuthConfig) (db : DB)
    (email password : String) (ua ip : Option String) (now : Nat)
    (jtiA jtiR : String) (u : UserRec) :
    (email ≠ "" → password ≠ "" →
      db.users.find? (fun x => x.email == email) = none →
      login cfg db (some email) (some password) ua ip now jtiA jtiR =
        (.err 401 "Invalid credentials", db)) ∧
    (email ≠ "" → password ≠ "" →
      db.users.find? (fun x => x.email == email) = some u →
      u.is_active = false →
      login cfg db (some email) (some password) ua ip now jtiA jtiR =
        (.err 401 "Invalid credentials", db)) ∧
    (email ≠ "" → password ≠ "" →
      db.users.find? (fun x => x.email == email) = some u →
      u.is_active = true →
      verify_password password u.password_hash = .ok false →
      login cfg db (some email) (some password) ua ip now jtiA jtiR =
        (.err 401 "Invalid credentials", db)) ∧
    (email ≠ "" → password ≠ "" →
      db.users.find? (fun x => x.email == email) = some u →
      u.is_active = true →
      verify_password password u.password_hash = .ok true →
      login cfg db (some email) (some password) ua ip now jtiA jtiR =
        (.ok (generate_tokens cfg u now jtiA jtiR).1
             (generate_tokens cfg u now jtiA jtiR).2.1 u.id,
         update_last_login (store_refresh_token cfg db u jtiR ua ip now).2 u now)) := by
  refine ⟨fun h1 h2 hf => ?_, fun h1 h2 hf ha => ?_, fun h1 h2 hf ha hv => ?_,
          fun h1 h2 hf ha hv => ?_⟩
  · simp [login, h1, h2, hf]
  · simp [login, h1, h2, hf, ha]
  · simp [login, h1, h2, hf, ha, hv]
  · simp [login, h1, h2, hf, ha, hv, generate_tokens, store_refresh_token,
      update_last_login]

/-- Instantiation of `login_invalid_credentials_uniform`: an unregistered
email, the inactive user `bob`, and a wrong password for `alice` all yield the
same 401 response on a concrete database, and `alice` with her password gets a
token pair. -/
theorem login_invalid_credentials_uniform_witness :
    login cfg0 db0 (some "carol@example.com") (some "pw1") none none 200 "a1" "r1" =
      (.err 401 "Invalid credentials", db0) ∧
    login cfg0 db0 (some "alice@example.com") (some "wrong") none none 200 "a1" "r1" =
      (.err 401 "Invalid credentials", db0) ∧
    login cfg0 db0 (some "alice@example.com") (some "pw1") none none 200 "a1" "r1" =
      (.ok (generate_tokens cfg0 user0 200 "a1" "r1").1
           (generate_tokens cfg0 user0 200 "a1" "r1").2.1 user0.id,
       update_last_login (store_refresh_token cfg0 db0 user0 "r1" none none 200).2
         user0 200) :=
  ⟨(login_invalid_credentials_uniform cfg0 db0 "carol@example.com" "pw1" none none
      200 "a1" "r1" user0).1 (by decide) (by decide) (by decide),
   (login_invalid_credentials_uniform cfg0 db0 "alice@example.com" "wrong" none none
      200 "a1" "r1" user0).2.2.1 (by decide) (by decide) (by rfl) (by rfl)
      (by rfl),
   (login_invalid_credentials_uniform cfg0 db0 "alice@example.com" "pw1" none none
      200 "a1" "r1" user0).2.2.2 (by decide) (by decide) (by rfl) (by rfl)
      (by rfl)⟩

/-- C3: a deactivated user (`is_active = false`) is rejected by both flows:
`login` answers the generic 401 even when the password verifies, and
`validate_refresh_token` fails even for a token with a valid signature,
unexpired, whose ledger row is present, unrevoked and unexpired. -/
theorem inactive_user_blocked (cfg : AuthConfig) (db : DB)
    (email password : String) (ua ip : Option String) (now : Nat)
    (jtiA jtiR : String) (u : UserRec) (tok : Jwt) (r : RefreshTokenRec) :
    (email ≠ "" → password ≠ "" →
      db.users.find? (fun x => x.email == email) = some u →
      u.is_active = false →
      verify_password password u.password_hash = .ok true →
      login cfg db (some email) (some password) ua ip now jtiA jtiR =
        (.err 401 "Invalid credentials", db)) ∧
    (tok.key = cfg.jwtSecretKey →
      now < tok.payload.exp →
      db.refreshTokens.find?
          (fun t => t.token == tok.payload.jti && !t.is_revoked) = some r →
      ¬ r.expires_at < now →
      db.users.find? (fun x => x.id == tok.payload.sub) = some u →
      u.is_active = false →
      validate_refresh_token cfg db tok now = (none, db) ∧
      refresh cfg db (some tok) ua ip now jtiA jtiR =
        (.err 401 "Invalid or expired refresh token", db)) := by
  constructor
  · intro h1 h2 hf ha _
    simp [login, h1, h2, hf, ha]
  · intro hkey hexp hfind hnx hu ha
    have hval : validate_refresh_token cfg db tok now = (none, db) := by
      simp only [validate_refresh_token, jwtDecode, hkey, bne_self_eq_false,
        cond_false, Bool.true_and]
      rw [decide_eq_false (by omega : ¬ tok.payload.exp ≤ now), cond_false]
      simp only [hfind]
      rw [if_neg hnx]
      simp [hu, ha]
    exact ⟨hval, by simp only [refresh, hval]⟩

/-- Instantiation of `inactive_user_blocked` on a concrete inactive user. -/
theorem inactive_user_blocked_witness :
    login cfg0 dbInactive (some "alice@example.com") (some "pw1") none none 200
        "a1" "r1" =
      (.err 401 "Invalid credentials", dbInactive) ∧
    validate_refresh_token cfg0 dbInactive tok0 200 = (none, dbInactive) :=
  ⟨(inactive_user_blocked cfg0 dbInactive "alice@example.com" "pw1" none none 200
      "a1" "r1" userInactive tok0 rec0).1 (by decide) (by decide) (by rfl)
      (by rfl) (by rfl),
   ((inactive_user_blocked cfg0 dbInactive "alice@example.com" "pw1" none none 200
      "a1" "r1" userInactive tok0 rec0).2 (by rfl) (by decide) (by rfl)
      (by decide) (by rfl) (by rfl)).1⟩

/-- C6: deleting the reserved roles always fails with 403 before any state is
touched, and any attempt to change the admin role's permission list fails (403
when the role row exists, 404 when it does not), again with the database
unchanged. -/
theorem reserved_roles_protected (db : DB) (desc? : Option String)
    (ps : List String) :
    delete_role_route db "admin" =
      (.err 403 "Cannot delete the admin role", db) ∧
    delete_role_route db "user" =
      (.err 403 "Cannot delete the user role", db) ∧
    update_role_route db "admin" desc? (some ps) =
      (if (db.roles.find? (fun r => r.name == "admin")).isSome then
        ((.err 403 "Cannot modify permissions for the admin role" : AdminResult), db)
       else (.err 404 "Role admin not found", db)) := by
  refine ⟨rfl, rfl, ?_⟩
  cases hf : db.roles.find? (fun r => r.name == "admin") with
  | none => simp [update_role_route, hf]
  | some r => simp [update_role_route, hf]

/-- C9: logout is idempotent best-effort: a missing refresh token, a token
that fails to decode, and a jti with no ledger row all still answer
`(200, Logged out successfully)` — the route never errors — and when the token
decodes and a ledger row for its jti exists, that row's `is_revoked` flag is
set. -/
theorem logout_idempotent_best_effort (cfg : AuthConfig) (db : DB)
    (tok? : Option Jwt) (tok : Jwt) (r : RefreshTokenRec) :
    ((logout cfg db tok?).1 = (200, "Logged out successfully")) ∧
    (tok.key = cfg.jwtSecretKey → tok.payload.jti ≠ "" →
      db.refreshTokens.find? (fun t => t.token == tok.payload.jti) = some r →
      (logout cfg db (some tok)).2.refreshTokens.find?
          (fun t => t.token == tok.payload.jti) =
        some { r with is_revoked := true }) := by
  constructor
  · match tok? with
    | none => rfl
    | some t =>
        simp only [logout]
        cases hdec : jwtDecode t cfg.jwtSecretKey 0 false with
        | error e => rfl
        | ok p =>
            dsimp only
            split <;> rfl
  · intro hkey hjti hfind
    have hdec : jwtDecode tok cfg.jwtSecretKey 0 false = .ok tok.payload := by
      simp [jwtDecode, hkey]
    simp only [logout, hdec]
    rw [if_neg hjti]
    simp only [revoke_refresh_token, hfind]
    have hpr : (fun t : RefreshTokenRec => t.token == tok.payload.jti)
        ({ r with is_revoked := true }) = true := by
      have := List.find?_some hfind
      simpa using this
    exact find?_updateFirst_of_found _ _ db.refreshTokens r hfind hpr

/-- Instantiation of `logout_idempotent_best_effort`: on the concrete database
the logout call answers 200 and leaves the ledger row for `j1` revoked. -/
theorem logout_idempotent_best_effort_witness :
    (logout cfg0 db0 (some tok0)).2.refreshTokens.find?
        (fun t => t.token == tok0.payload.jti) =
      some { rec0 with is_revoked := true } :=
  (logout_idempotent_best_effort cfg0 db0 (some tok0) tok0 rec0).2
    (by rfl) (by decide) (by rfl)

/-- C10: when `revoke_all_sessions` is called with a missing or undecodable
`current_refresh_token`, no current jti is extracted and the route revokes
every refresh-token row belonging to the user — including the one backing the
caller's current session. -/
theorem revoke_all_sessions_without_current_revokes_all (cfg : AuthConfig)
    (db : DB) (userId : String) (current? : Option Jwt) (u : UserRec) :
    db.users.find? (fun x => x.id == userId) = some u →
    (current? = none ∨ ∃ tok, current? = some tok ∧ tok.key ≠ cfg.jwtSecretKey) →
    (revoke_all_sessions cfg db userId current?).1 = .ok ∧
    ∀ t ∈ (revoke_all_sessions cfg db userId current?).2.refreshTokens,
      t.user_id = u.id → t.is_revoked = true := by
  intro hu hcur
  have hmap :
      revoke_all_sessions cfg db userId current? =
        (.ok,
         { db with
             refreshTokens :=
               db.refreshTokens.map (fun t =>
                 if t.user_id == u.id && true then { t with is_revoked := true }
                 else t) }) := by
    rcases hcur with hnone | ⟨tok, hsome, hkey⟩
    · subst hnone
      simp [revoke_all_sessions, hu]
    · subst hsome
      have hdec : jwtDecode tok cfg.jwtSecretKey 0 false = .error .invalid := by
        simp [jwtDecode, bne_iff_ne.mpr hkey]
      simp [revoke_all_sessions, hu, hdec]
  refine ⟨by rw [hmap], ?_⟩
  intro t ht huid
  rw [hmap] at ht
  simp only [List.mem_map] at ht
  obtain ⟨s, _, hfs⟩ := ht
  by_cases hsu : (s.user_id == u.id) = true
  · rw [if_pos (by simp [hsu])] at hfs
    rw [← hfs]
  · rw [if_neg (by simp [hsu])] at hfs
    subst hfs
    exact absurd (beq_iff_eq.mpr huid) hsu

/-- Instantiation of `revoke_all_sessions_without_current_revokes_all` with a
missing current token: the single session row of the user ends up revoked. -/
theorem revoke_all_sessions_without_current_revokes_all_witness :
    (revoke_all_sessions cfg0 db0 "u1" none).1 = .ok ∧
    ∀ t ∈ (revoke_all_sessions cfg0 db0 "u1" none).2.refreshTokens,
      t.user_id = user0.id → t.is_revoked = true :=
  revoke_all_sessions_without_current_revokes_all cfg0 db0 "u1" none user0
    (by rfl) (Or.inl rfl)

/-- C8 counterexample: for a token issued by the service, the ledger row's
`expires_at` is never earlier than the token's own `exp` claim, so once the
row has expired the `jwt.decode` step fails first and the expiry-discovery
branch is never reached: validation fails but the row's `is_revoked` flag is
NOT set during the call.  Concretely: `rec0` expired (expires_at 604900 < now
700000) and `tok0.exp = 604900 < 700000`; validation returns with the database
unchanged and the row still unrevoked. -/
theorem validate_expired_record_not_revoked :
    validate_refresh_token cfg0 db0 tok0 700000 = (none, db0) ∧
    db0.refreshTokens = [rec0] ∧
    rec0.is_revoked = false :=
  ⟨rfl, rfl, rfl⟩

/-- C8 (amended): the expiry-discovery side effect exists but only fires when
the presented token itself still decodes (its own `exp` is in the future)
while the ledger row has expired — then validation fails and the row's
`is_revoked` flag is set in the same call.  When the token's own `exp` has
passed as well (always the case for tokens issued by `generate_tokens` +
`store_refresh_token`), validation fails at decode with no state change; a
revoked or absent row also fails with no state change. -/
theorem validate_refresh_token_ledger_behavior (cfg : AuthConfig) (db : DB)
    (tok : Jwt) (now : Nat) (r : RefreshTokenRec) :
    (tok.key = cfg.jwtSecretKey → now < tok.payload.exp →
      db.refreshTokens.find?
          (fun t => t.token == tok.payload.jti && !t.is_revoked) = some r →
      r.expires_at < now →
      validate_refresh_token cfg db tok now =
        (none,
         { db with
             refreshTokens :=
               updateFirst (fun t => t.token == tok.payload.jti && !t.is_revoked)
                 (fun t => { t with is_revoked := true }) db.refreshTokens }) ∧
      (db.refreshTokens.countP (fun t => t.token == tok.payload.jti) ≤ 1 →
        (validate_refresh_token cfg db tok now).2.refreshTokens.find?
            (fun t => t.token == tok.payload.jti && !t.is_revoked) = none)) ∧
    (tok.key = cfg.jwtSecretKey → now < tok.payload.exp →
      db.refreshTokens.find?
          (fun t => t.token == tok.payload.jti && !t.is_revoked) = none →
      validate_refresh_token cfg db tok now = (none, db)) ∧
    (tok.payload.exp ≤ now →
      validate_refresh_token cfg db tok now = (none, db)) := by
  refine ⟨fun hkey hexp hfind hx => ?_, fun hkey hexp hfind => ?_, fun hd => ?_⟩
  · have hval : validate_refresh_token cfg db tok now =
        (none,
         { db with
             refreshTokens :=
               updateFirst (fun t => t.token == tok.payload.jti && !t.is_revoked)
                 (fun t => { t with is_revoked := true }) db.refreshTokens }) := by
      simp only [validate_refresh_token, jwtDecode, hkey, bne_self_eq_false,
        cond_false, Bool.true_and]
      rw [decide_eq_false (by omega : ¬ tok.payload.exp ≤ now), cond_false]
      simp only [hfind]
      rw [if_pos hx]
    refine ⟨hval, fun hcount => ?_⟩
    rw [hval]
    exact find?_unrevoked_after_consume _ _ hcount
  · simp only [validate_refresh_token, jwtDecode, hkey, bne_self_eq_false,
      cond_false, Bool.true_and]
    rw [decide_eq_false (by omega : ¬ tok.payload.exp ≤ now), cond_false]
    simp only [hfind]
  · simp only [validate_refresh_token, jwtDecode]
    cases hk : (tok.key != cfg.jwtSecretKey)
    · rw [cond_false, Bool.true_and, decide_eq_true hd, cond_true]
    · rw [cond_true]

/-- Instantiation of `validate_refresh_token_ledger_behavior`: on a handmade
row whose ledger expiry passed while the token's `exp` claim has not, the
validation call fails and flips the row's `is_revoked` flag. -/
theorem validate_refresh_token_ledger_behavior_witness :
    validate_refresh_token cfg0 dbExpired tokLongExp 200 =
      (none,
       { dbExpired with
           refreshTokens :=
             updateFirst
               (fun t => t.token == tokLongExp.payload.jti && !t.is_revoked)
               (fun t => { t with is_revoked := true }) dbExpired.refreshTokens }) :=
  ((validate_refresh_token_ledger_behavior cfg0 dbExpired tokLongExp 200
      recExpired).1 (by rfl) (by decide) (by rfl) (by decide)).1

/-- C2: the claim asserts the read-then-revoke sequence is serialized per jti
(row lock or compare-and-set) so that of two concurrent refresh calls with
the same fresh token exactly one succeeds.  The code has no such guard —
`validate_refresh_token` is a plain SELECT and the revoke a later separate
UPDATE/commit — so the legal interleaving in which both workers validate
before either commits lets BOTH calls succeed: executed on a database holding
one active user and one fresh unrevoked ledger row, both interleaved refresh
calls return a 200 token pair. -/
theorem refresh_concurrent_both_succeed :
    ((refresh_interleaved cfg0 db0 tok0 200 "a1" "r1" "a2" "r2").1).isOk = true ∧
    ((refresh_interleaved cfg0 db0 tok0 200 "a1" "r1" "a2" "r2").2.1).isOk = true :=
  ⟨rfl, rfl⟩

/-- C1: refresh tokens are single-use under sequential replay.  For a token
`R` whose ledger row is present, unrevoked and unexpired (the state in which
login or a previous refresh leaves a freshly issued token, with jtis unique
in the ledger and the new jti `jR` fresh), the first `refresh(R)` succeeds
and returns the new pair whose refresh token is `R'`; afterwards the consumed
jti's ledger row is revoked (no unrevoked row with that jti remains), every
later `refresh(R)` — at any later time, with any fresh jtis — answers the
401 invalid-or-expired-token error, while `refresh(R')` is accepted. -/
theorem refresh_token_single_use (cfg : AuthConfig) (db : DB) (R : Jwt)
    (now : Nat) (ua ip : Option String) (jA jR : String) (u : UserRec)
    (r : RefreshTokenRec) :
    R.key = cfg.jwtSecretKey →
    now < R.payload.exp →
    0 < cfg.refreshTTL →
    db.refreshTokens.find?
        (fun t => t.token == R.payload.jti && !t.is_revoked) = some r →
    ¬ r.expires_at < now →
    db.users.find? (fun x => x.id == R.payload.sub) = some u →
    u.is_active = true →
    db.refreshTokens.countP (fun t => t.token == R.payload.jti) ≤ 1 →
    db.refreshTokens.countP (fun t => t.token == jR) = 0 →
    jR ≠ R.payload.jti →
    refresh cfg db (some R) ua ip now jA jR =
      (.ok ⟨accessPayload cfg u now jA, cfg.jwtSecretKey⟩
           ⟨refreshPayload cfg u.id now jR, cfg.jwtSecretKey⟩,
       rotatedDB cfg db u R.payload.jti jR ua ip now) ∧
    (rotatedDB cfg db u R.payload.jti jR ua ip now).refreshTokens.find?
        (fun t => t.token == R.payload.jti && !t.is_revoked) = none ∧
    (∀ now2 ua2 ip2 jA2 jR2,
      (refresh cfg (rotatedDB cfg db u R.payload.jti jR ua ip now) (some R)
          ua2 ip2 now2 jA2 jR2).1 =
        .err 401 "Invalid or expired refresh token") ∧
    (∀ ua3 ip3 jA3 jR3,
      ((refresh cfg (rotatedDB cfg db u R.payload.jti jR ua ip now)
          (some ⟨refreshPayload cfg u.id now jR, cfg.jwtSecretKey⟩)
          ua3 ip3 now jA3 jR3).1).isOk = true) := by
  intro hkey hexp hTTL hfind hnx hu hact hcount hfresh hne
  have hsub : u.id = R.payload.sub := by
    have h := List.find?_some hu
    simpa using h
  have hu' : db.users.find? (fun x => x.id == u.id) = some u := by
    rw [hsub]
    exact hu
  have hval : validate_refresh_token cfg db R now = (some (u, R.payload.jti), db) := by
    simp only [validate_refresh_token, jwtDecode, hkey, bne_self_eq_false,
      cond_false, Bool.true_and]
    rw [decide_eq_false (by omega : ¬ R.payload.exp ≤ now), cond_false]
    simp only [hfind]
    rw [if_neg hnx]
    simp [hu, hact]
  obtain ⟨y, hy⟩ : ∃ y,
      db.refreshTokens.find? (fun t => t.token == R.payload.jti) = some y := by
    cases hcase : db.refreshTokens.find? (fun t => t.token == R.payload.jti) with
    | some y => exact ⟨y, rfl⟩
    | none =>
        have hmem := List.mem_of_find?_eq_some hfind
        have hq := List.find?_some hfind
        have hp : (r.token == R.payload.jti) = true := by
          revert hq
          cases (r.token == R.payload.jti) <;> simp
        have hnotp := List.find?_eq_none.mp hcase r hmem
        simp [hp] at hnotp
  have h1 : refresh cfg db (some R) ua ip now jA jR =
      (.ok ⟨accessPayload cfg u now jA, cfg.jwtSecretKey⟩
           ⟨refreshPayload cfg u.id now jR, cfg.jwtSecretKey⟩,
       rotatedDB cfg db u R.payload.jti jR ua ip now) := by
    simp only [refresh, hval, refresh_commit, revoke_refresh_token, hy,
      generate_tokens, store_refresh_token, update_last_login, rotatedDB]
  have h2 : (rotatedDB cfg db u R.payload.jti jR ua ip now).refreshTokens.find?
      (fun t => t.token == R.payload.jti && !t.is_revoked) = none := by
    simp only [rotatedDB]
    rw [List.find?_append, find?_unrevoked_after_revoke _ _ hcount, Option.none_or]
    rw [List.find?_cons_of_neg _ (by simp [hne])]
    rfl
  have h3 : ∀ now2 ua2 ip2 jA2 jR2,
      (refresh cfg (rotatedDB cfg db u R.payload.jti jR ua ip now) (some R)
          ua2 ip2 now2 jA2 jR2).1 =
        .err 401 "Invalid or expired refresh token" := by
    intro now2 ua2 ip2 jA2 jR2
    have hval2 : validate_refresh_token cfg
        (rotatedDB cfg db u R.payload.jti jR ua ip now) R now2 =
        (none, rotatedDB cfg db u R.payload.jti jR ua ip now) := by
      simp only [validate_refresh_token, jwtDecode, hkey, bne_self_eq_false,
        cond_false, Bool.true_and]
      by_cases hd : R.payload.exp ≤ now2
      · rw [decide_eq_true hd, cond_true]
      · rw [decide_eq_false hd, cond_false]
        simp only [h2]
    simp only [refresh, hval2]
  have h4 : ∀ ua3 ip3 jA3 jR3,
      ((refresh cfg (rotatedDB cfg db u R.payload.jti jR ua ip now)
          (some ⟨refreshPayload cfg u.id now jR, cfg.jwtSecretKey⟩)
          ua3 ip3 now jA3 jR3).1).isOk = true := by
    intro ua3 ip3 jA3 jR3
    have hcnt0 : (updateFirst (fun t => t.token == R.payload.jti)
        (fun t => { t with is_revoked := true }) db.refreshTokens).countP
        (fun t => t.token == jR) = 0 := by
      rw [countP_updateFirst (fun t : RefreshTokenRec => t.token == R.payload.jti)
        (fun t : RefreshTokenRec => t.token == jR)
        (fun t : RefreshTokenRec => { t with is_revoked := true })
        (fun a => rfl)]
      exact hfresh
    have hfind3 : (rotatedDB cfg db u R.payload.jti jR ua ip now).refreshTokens.find?
        (fun t => t.token == jR && !t.is_revoked) =
        some { token := jR, user_id := u.id, expires_at := now + cfg.refreshTTL,
               is_revoked := false, user_agent := ua, ip_address := ip } := by
      simp only [rotatedDB]
      rw [List.find?_append]
      rw [find?_eq_none_of_countP_eq_zero (fun t => t.token == jR) _
        (fun a ha => by
          cases hta : (a.token == jR)
          · rw [hta] at ha
            exact absurd ha (by simp)
          · exact hta) _ hcnt0]
      rw [Option.none_or]
      rw [List.find?_cons_of_pos _ (by simp)]
    have hu3 : (rotatedDB cfg db u R.payload.jti jR ua ip now).users.find?
        (fun x => x.id == u.id) = some { u with last_login_at := some now } := by
      simp only [rotatedDB]
      exact find?_updateFirst_of_found _ _ db.users u hu' (by simp)
    have hval3 : validate_refresh_token cfg
        (rotatedDB cfg db u R.payload.jti jR ua ip now)
        ⟨refreshPayload cfg u.id now jR, cfg.jwtSecretKey⟩ now =
        (some ({ u with last_login_at := some now }, jR),
         rotatedDB cfg db u R.payload.jti jR ua ip now) := by
      simp only [validate_refresh_token, jwtDecode, refreshPayload,
        bne_self_eq_false, cond_false, Bool.true_and]
      rw [decide_eq_false (by omega : ¬ now + cfg.refreshTTL ≤ now), cond_false]
      simp only [hfind3]
      rw [if_neg (by omega : ¬ now + cfg.refreshTTL < now)]
      simp [hu3, hact]
    simp only [refresh, hval3, refresh_commit]
    rfl
  exact ⟨h1, h2, h3, h4⟩

/-- Instantiation of `refresh_token_single_use` on the concrete database:
the first refresh of `tok0` succeeds, the replayed refresh answers 401, and
the newly issued refresh token is accepted. -/
theorem refresh_token_single_use_witness :
    refresh cfg0 db0 (some tok0) none none 200 "a1" "r1" =
      (.ok ⟨accessPayload cfg0 user0 200 "a1", cfg0.jwtSecretKey⟩
           ⟨refreshPayload cfg0 user0.id 200 "r1", cfg0.jwtSecretKey⟩,
       rotatedDB cfg0 db0 user0 tok0.payload.jti "r1" none none 200) ∧
    (∀ now2 ua2 ip2 jA2 jR2,
      (refresh cfg0 (rotatedDB cfg0 db0 user0 tok0.payload.jti "r1" none none 200)
          (some tok0) ua2 ip2 now2 jA2 jR2).1 =
        .err 401 "Invalid or expired refresh token") ∧
    (∀ ua3 ip3 jA3 jR3,
      ((refresh cfg0 (rotatedDB cfg0 db0 user0 tok0.payload.jti "r1" none none 200)
          (some ⟨refreshPayload cfg0 user0.id 200 "r1", cfg0.jwtSecretKey⟩)
          ua3 ip3 200 jA3 jR3).1).isOk = true) := by
  have h := refresh_token_single_use cfg0 db0 tok0 200 none none "a1" "r1"
    user0 rec0 (by rfl) (by decide) (by decide) (by rfl) (by decide) (by rfl)
    (by rfl) (by decide) (by decide) (by decide)
  exact ⟨h.1, h.2.2.1, h.2.2.2⟩

end EmrAuth
